import Mathlib

/-!
Verification of the cellular info API (`u_cell_info.c`) of this repository.

The C sources are shallowly embedded: machine `int32_t` values become `Int`
(no arithmetic here comes anywhere near the 32-bit boundary, and each place
where that matters is noted), AT-client interactions become explicit
"response" records holding the values the AT read primitives return together
with the status reported by `uAtClientUnlock`, and the per-device state
(`gUCellPrivateMutex`, the instance looked up through
`pUCellPrivateGetInstance`) becomes an explicit state record.  Functions
declared in headers or translation units outside this repository slice are
modelled from the spec and marked as such in their doc comments.
-/

namespace UCellInfo

/-! ## Error codes

The numeric values of the error codes come from `u_error_common.h` and
`u_cell.h`, which are outside this repository slice; the code under
verification only relies on `U_ERROR_COMMON_SUCCESS` being `0` and on the
other codes being nonzero (and the spec on their being distinct), which the
values below satisfy. -/

def U_ERROR_COMMON_SUCCESS : Int := 0

def U_ERROR_COMMON_UNKNOWN : Int := -1

def U_ERROR_COMMON_NOT_INITIALISED : Int := -2

def U_ERROR_COMMON_INVALID_PARAMETER : Int := -5

def U_CELL_ERROR_AT : Int := -257

def U_CELL_ERROR_NOT_REGISTERED : Int := -258

def U_CELL_ERROR_VALUE_OUT_OF_RANGE : Int := -260

/-! ## Radio parameters -/

/-- The per-instance radio-parameter snapshot
(`uCellPrivateRadioParameters_t` of `u_cell_private.h`). -/
structure RadioParameters where
  rssiDbm : Int
  rsrpDbm : Int
  rsrqDb : Int
  cellId : Int
  earfcn : Int
  rxQual : Int
deriving Repr, DecidableEq

/-- Modelled from the spec: `uCellPrivateClearRadioParameters()` lives in
`u_cell_private.c`, outside this repository slice.  The spec states that a
refresh starts by resetting every field to its "unknown" sentinel
(`rssiDbm`, `rsrpDbm`, `rsrqDb` to 0, `rxQual` to -1); the cleared values
used for `cellId` and `earfcn` are -1. -/
def uCellPrivateClearRadioParameters : RadioParameters :=
  { rssiDbm := 0, rsrpDbm := 0, rsrqDb := 0, cellId := -1, earfcn := -1, rxQual := -1 }

/-- The `gRssiConvertLte` (u_cell_info.c:71): LTE RSSI index from `AT+CSQ`
to dBm. -/
def gRssiConvertLte : List Int :=
  [-118, -115, -113, -110, -108, -105, -103, -100,
   -98,  -95,  -93,  -90,  -88,  -85,  -83,  -80,
   -78,  -76,  -74,  -73,  -71,  -69,  -68,  -65,
   -63,  -61,  -60,  -59,  -58,  -55,  -53,  -48]

/-! ## Unit decoders (u_cell_info.c:87 and u_cell_info.c:107)

C integer division truncates toward zero, which is `Int.tdiv`. -/

/-- The `rsrpToDbm` (u_cell_info.c:87): convert RSRP in TS 36.133 coding to
dBm; 0 when the code is out of the 0..97 domain. -/
def rsrpToDbm (rsrp : Int) : Int :=
  if 0 ≤ rsrp ∧ rsrp ≤ 97 then
    let rsrpDbm := rsrp - (97 + 44)
    if rsrpDbm < -141 then -141 else rsrpDbm
  else 0

/-- The `rsrqToDb` (u_cell_info.c:107): convert RSRQ in TS 36.133 coding to
dB; 0 when the code is out of the 0..34 domain. -/
def rsrqToDb (rsrq : Int) : Int :=
  if 0 ≤ rsrq ∧ rsrq ≤ 34 then
    let rsrqDb := Int.tdiv (rsrq - (34 + 6)) 2
    if rsrqDb < -19 then -19 else rsrqDb
  else 0

/-- Claim C5: for every code `c` in 0..97 the RSRP decoder returns
`c - 141`, a value in `[-141, -44]` (so code 0 gives -141 and code 97
gives -44), and for every code outside 0..97 it returns the unknown
sentinel 0; it is a pure total function with no failure case. -/
theorem claimC5_rsrpToDbm :
    (∀ c : Int, 0 ≤ c → c ≤ 97 →
        rsrpToDbm c = c - 141 ∧ -141 ≤ rsrpToDbm c ∧ rsrpToDbm c ≤ -44) ∧
    rsrpToDbm 0 = -141 ∧ rsrpToDbm 97 = -44 ∧
    (∀ c : Int, c < 0 ∨ 97 < c → rsrpToDbm c = 0) := by
  refine ⟨?_, by decide, by decide, ?_⟩
  · intro c h0 h1
    simp only [rsrpToDbm, if_pos (And.intro h0 h1)]
    omega
  · intro c hc
    have h : ¬ (0 ≤ c ∧ c ≤ 97) := by omega
    simp only [rsrpToDbm, if_neg h]

/-- Witness for C5: the in-domain clause at code 5 and the out-of-domain
clause at code 200. -/
theorem claimC5_rsrpToDbm_witness :
    (rsrpToDbm 5 = 5 - 141 ∧ -141 ≤ rsrpToDbm 5 ∧ rsrpToDbm 5 ≤ -44) ∧
    rsrpToDbm 200 = 0 :=
  ⟨claimC5_rsrpToDbm.1 5 (by decide) (by decide),
   claimC5_rsrpToDbm.2.2.2 200 (Or.inr (by decide))⟩

/-- Claim C6: for every code `c` in 0..34 the RSRQ decoder returns
`(c - 40) / 2` in truncating integer division, clamped below at -19, so
every in-domain result lies in `[-19, -3]`, code 0 gives -19 (the raw
-20 clamped) and code 34 gives -3; outside 0..34 it returns sentinel 0. -/
theorem claimC6_rsrqToDb :
    (∀ c : Int, 0 ≤ c → c ≤ 34 →
        rsrqToDb c = max (Int.tdiv (c - 40) 2) (-19) ∧
        -19 ≤ rsrqToDb c ∧ rsrqToDb c ≤ -3) ∧
    rsrqToDb 0 = -19 ∧ Int.tdiv (0 - 40) 2 = -20 ∧ rsrqToDb 34 = -3 ∧
    (∀ c : Int, c < 0 ∨ 34 < c → rsrqToDb c = 0) := by
  refine ⟨?_, by decide, by decide, by decide, ?_⟩
  · intro c h0 h1
    interval_cases c <;> exact ⟨by decide, by decide, by decide⟩
  · intro c hc
    have h : ¬ (0 ≤ c ∧ c ≤ 34) := by omega
    simp only [rsrqToDb, if_neg h]

/-- Witness for C6: the in-domain clause at codes 1 and 3 (where the
truncating and flooring readings of the division differ) and the
out-of-domain clause at code 255. -/
theorem claimC6_rsrqToDb_witness :
    (rsrqToDb 1 = max (Int.tdiv (1 - 40) 2) (-19) ∧
      -19 ≤ rsrqToDb 1 ∧ rsrqToDb 1 ≤ -3) ∧
    (rsrqToDb 3 = max (Int.tdiv (3 - 40) 2) (-19) ∧
      -19 ≤ rsrqToDb 3 ∧ rsrqToDb 3 ≤ -3) ∧
    rsrqToDb 255 = 0 :=
  ⟨claimC6_rsrqToDb.1 1 (by decide) (by decide),
   claimC6_rsrqToDb.1 3 (by decide) (by decide),
   claimC6_rsrqToDb.2.2.2.2 255 (Or.inr (by decide))⟩

/-! ## AT responses and device state

Each "response" record holds the values the AT read primitives deliver for
one locked command/response exchange plus the status returned by
`uAtClientUnlock` for that exchange (`0` on success, negative on a
transport/AT failure). -/

/-- Wire data consumed by `getRadioParamsCsq` (u_cell_info.c:159):
the two integers of `+CSQ: <x>,<y>` and the unlock status. -/
structure CsqResponse where
  x : Int
  y : Int
  unlockStatus : Int
deriving Repr, DecidableEq

/-- Wire data consumed by `getRadioParamsUcged2` (u_cell_info.c:190):
the four integers read from the `+UCGED` report (EARFCN, PCID, RSRP and
RSRQ codes; the skipped fields are not modelled) and the unlock status. -/
structure Ucged2Response where
  earfcn : Int
  cellId : Int
  rsrp : Int
  rsrq : Int
  unlockStatus : Int
deriving Repr, DecidableEq

/-- Wire data consumed by `getRadioParamsUcged5` (u_cell_info.c:228).
`rsrpRead`/`rsrqRead` model `uAtClientReadString` followed by `strtof`:
`none` when the read returned no bytes (`≤ 0`), `some q` when it returned a
positive byte count for a decimal string whose numeric value is `q`.  The
decimal strings this command reports (one fractional digit, so exactly
representable across the conversion) are modelled as exact rationals. -/
structure Ucged5Response where
  cellId : Int
  earfcn : Int
  rsrpRead : Option ℚ
  rsrqRead : Option ℚ
  unlockStatus : Int
deriving DecidableEq

/-- The module family of an instance: `U_CELL_MODULE_TYPE_SARA_R5`, the
`U_CELL_PRIVATE_MODULE_IS_SARA_R4` family, or any other module type
(u_cell_info.c:298 and u_cell_info.c:305 only distinguish these three). -/
inductive ModuleType where
  | saraR5 : ModuleType
  | saraR4 : ModuleType
  | other : ModuleType
deriving Repr, DecidableEq

/-- Modelled from the spec: the active radio-access technology as reported
by `uCellPrivateGetActiveRat` (in `u_cell_private.c`, outside this
repository slice); the refresh path only tests it through
`U_CELL_PRIVATE_RAT_IS_EUTRAN`, so only that distinction is kept. -/
inductive CellNetRat where
  | eutran : CellNetRat
  | notEutran : CellNetRat
deriving Repr, DecidableEq

/-- One entry of the instance table (`uCellPrivateInstance_t`): module
family, registration state, active RAT, the snapshot, and the wire data
the next AT exchanges of each kind will deliver. -/
structure CellInstance where
  moduleType : ModuleType
  registered : Bool
  rat : CellNetRat
  radioParameters : RadioParameters
  csq : CsqResponse
  ucged2 : Ucged2Response
  ucged5 : Ucged5Response
deriving DecidableEq

/-- The subsystem state seen by one API call: whether `gUCellPrivateMutex`
is non-NULL (the subsystem was initialised) and the result of
`pUCellPrivateGetInstance(cellHandle)` for the handle passed in (`none`
models an unknown handle). -/
structure CellState where
  mutexInitialised : Bool
  pInstance : Option CellInstance
deriving DecidableEq

/-! ## Radio-parameter strategies -/

/-- The `getRadioParamsCsq` (u_cell_info.c:159): issue `AT+CSQ`, read
`<x>,<y>`, map `y = 99` to -1, and only on unlock success store the RSSI
(when `x` indexes `gRssiConvertLte`) and the RxQual.  Returns the error
code and the updated parameters. -/
def getRadioParamsCsq (r : CsqResponse) (p : RadioParameters) :
    Int × RadioParameters :=
  let y := if r.y = 99 then -1 else r.y
  let errorCode := r.unlockStatus
  if errorCode = 0 then
    let p := if 0 ≤ r.x ∧ r.x < 32 then
               { p with rssiDbm := gRssiConvertLte.getD r.x.toNat 0 }
             else p
    (errorCode, { p with rxQual := y })
  else
    (errorCode, p)

/-- The `getRadioParamsUcged2` (u_cell_info.c:190): issue `AT+UCGED?` and
store EARFCN, PCID and the decoded RSRP/RSRQ.  The stores happen while the
exchange is still locked, before the unlock status is known, so they take
effect whatever that status turns out to be. -/
def getRadioParamsUcged2 (r : Ucged2Response) (p : RadioParameters) :
    Int × RadioParameters :=
  let p := { p with earfcn := r.earfcn, cellId := r.cellId,
                    rsrpDbm := rsrpToDbm r.rsrp, rsrqDb := rsrqToDb r.rsrq }
  (r.unlockStatus, p)

/-- Truncation toward zero of `rsrx + 0.5` for `rsrx ≥ 0` and of
`rsrx - 0.5` otherwise, as the two casts in u_cell_info.c:243 and
u_cell_info.c:245 (and u_cell_info.c:254, u_cell_info.c:256) do: a C cast
to `int32_t` truncates toward zero, which is `Int.floor` on the
nonnegative branch and `Int.ceil` on the negative one. -/
def ucgedRound (q : ℚ) : Int :=
  if 0 ≤ q then ⌊q + 1/2⌋ else ⌈q - 1/2⌉

/-- The `getRadioParamsUcged5` (u_cell_info.c:228): issue `AT+UCGED?`, store
cell ID and EARFCN, then store each of RSRP/RSRQ only when its string read
returned bytes, rounding the parsed value to the nearest integer.  As in
`getRadioParamsUcged2` the stores precede the unlock-status check. -/
def getRadioParamsUcged5 (r : Ucged5Response) (p : RadioParameters) :
    Int × RadioParameters :=
  let p := { p with cellId := r.cellId, earfcn := r.earfcn }
  let p := match r.rsrpRead with
           | some q => { p with rsrpDbm := ucgedRound q }
           | none => p
  let p := match r.rsrqRead with
           | some q => { p with rsrqDb := ucgedRound q }
           | none => p
  (r.unlockStatus, p)

/-! ## Refresh orchestrator -/

/-- Ghost instrumentation: which AT query strategies a refresh executed,
in order.  (The C code has no such value; it lets the theorems speak about
a step being executed or skipped.) -/
inductive QueryStep where
  | csqStep : QueryStep
  | ucged2Step : QueryStep
  | ucged5Step : QueryStep
deriving Repr, DecidableEq

/-- Result of a refresh: the returned error code, the state after the
call, and the ghost trace of executed query steps. -/
structure RefreshResult where
  errorCode : Int
  state : CellState
  steps : List QueryStep
deriving DecidableEq

/-- The `uCellInfoRefreshRadioParameters` (u_cell_info.c:269).  Mirrors the C
control flow: not-initialised and unknown-handle gates, clearing the
snapshot, the registration gate, the `AT+CSQ` baseline, then the
module-family branch (SARA-R5 runs `UCGED=2` unconditionally; the SARA-R4
family runs `UCGED=5` only in EUTRAN and otherwise forces success); the
baseline's error code is overwritten by whichever branch runs.  The
`uPortTaskBlock(500)` throttle is real time and is not modelled. -/
def uCellInfoRefreshRadioParameters (s : CellState) : RefreshResult :=
  if s.mutexInitialised then
    match s.pInstance with
    | none => { errorCode := U_ERROR_COMMON_INVALID_PARAMETER, state := s, steps := [] }
    | some inst =>
        let put := fun (p : RadioParameters) =>
          { s with pInstance := some { inst with radioParameters := p } }
        let p0 := uCellPrivateClearRadioParameters
        if inst.registered then
          let r1 := getRadioParamsCsq inst.csq p0
          match inst.moduleType with
          | ModuleType.saraR5 =>
              let r2 := getRadioParamsUcged2 inst.ucged2 r1.2
              { errorCode := r2.1, state := put r2.2,
                steps := [QueryStep.csqStep, QueryStep.ucged2Step] }
          | ModuleType.saraR4 =>
              if inst.rat = CellNetRat.eutran then
                let r2 := getRadioParamsUcged5 inst.ucged5 r1.2
                { errorCode := r2.1, state := put r2.2,
                  steps := [QueryStep.csqStep, QueryStep.ucged5Step] }
              else
                { errorCode := U_ERROR_COMMON_SUCCESS, state := put r1.2,
                  steps := [QueryStep.csqStep] }
          | ModuleType.other =>
              { errorCode := r1.1, state := put r1.2, steps := [QueryStep.csqStep] }
        else
          { errorCode := U_CELL_ERROR_NOT_REGISTERED, state := put p0, steps := [] }
  else
    { errorCode := U_ERROR_COMMON_NOT_INITIALISED, state := s, steps := [] }

/-! ## Per-field getters (u_cell_info.c:342 to u_cell_info.c:517) -/

/-- The `uCellInfoGetRssiDbm` (u_cell_info.c:342): 0 doubles as "error" since
valid readings are negative. -/
def uCellInfoGetRssiDbm (s : CellState) : Int :=
  if s.mutexInitialised then
    match s.pInstance with
    | some inst => inst.radioParameters.rssiDbm
    | none => 0
  else 0

/-- The `uCellInfoGetRsrpDbm` (u_cell_info.c:364). -/
def uCellInfoGetRsrpDbm (s : CellState) : Int :=
  if s.mutexInitialised then
    match s.pInstance with
    | some inst => inst.radioParameters.rsrpDbm
    | none => 0
  else 0

/-- The `uCellInfoGetRsrqDb` (u_cell_info.c:386). -/
def uCellInfoGetRsrqDb (s : CellState) : Int :=
  if s.mutexInitialised then
    match s.pInstance with
    | some inst => inst.radioParameters.rsrqDb
    | none => 0
  else 0

/-- The `uCellInfoGetRxQual` (u_cell_info.c:408): distinct error codes for the
not-initialised and unknown-handle cases. -/
def uCellInfoGetRxQual (s : CellState) : Int :=
  if s.mutexInitialised then
    match s.pInstance with
    | some inst => inst.radioParameters.rxQual
    | none => U_ERROR_COMMON_INVALID_PARAMETER
  else U_ERROR_COMMON_NOT_INITIALISED

/-- The `uCellInfoGetCellId` (u_cell_info.c:476). -/
def uCellInfoGetCellId (s : CellState) : Int :=
  if s.mutexInitialised then
    match s.pInstance with
    | some inst => inst.radioParameters.cellId
    | none => U_ERROR_COMMON_INVALID_PARAMETER
  else U_ERROR_COMMON_NOT_INITIALISED

/-- The `uCellInfoGetEarfcn` (u_cell_info.c:498). -/
def uCellInfoGetEarfcn (s : CellState) : Int :=
  if s.mutexInitialised then
    match s.pInstance with
    | some inst => inst.radioParameters.earfcn
    | none => U_ERROR_COMMON_INVALID_PARAMETER
  else U_ERROR_COMMON_NOT_INITIALISED

/-! ## Helper lemmas -/

/-- The error code `getRadioParamsCsq` reports is the unlock status of its
exchange, whichever branch was taken. -/
theorem getRadioParamsCsq_fst (r : CsqResponse) (p : RadioParameters) :
    (getRadioParamsCsq r p).1 = r.unlockStatus := by
  by_cases h0 : r.unlockStatus = 0 <;> by_cases h99 : r.y = 99 <;>
    simp [getRadioParamsCsq, h0, h99]

/-- The error code `getRadioParamsUcged5` reports is the unlock status of
its exchange. -/
theorem getRadioParamsUcged5_fst (r : Ucged5Response) (p : RadioParameters) :
    (getRadioParamsUcged5 r p).1 = r.unlockStatus := rfl

/-- A failed `AT+CSQ` exchange stores nothing. -/
theorem getRadioParamsCsq_fail (r : CsqResponse) (p : RadioParameters)
    (h : r.unlockStatus ≠ 0) : (getRadioParamsCsq r p).2 = p := by
  by_cases h99 : r.y = 99 <;> simp [getRadioParamsCsq, h, h99]

/-! ## Claim theorems about the getters and the orchestrator -/

/-- Claim C10: the per-field getters disagree on reporting a bad handle or
an uninitialised subsystem: `uCellInfoGetRssiDbm`, `uCellInfoGetRsrpDbm`
and `uCellInfoGetRsrqDb` return the sentinel 0 (indistinguishable from an
unknown reading) in both cases, while `uCellInfoGetRxQual`,
`uCellInfoGetCellId` and `uCellInfoGetEarfcn` return the distinct
`U_ERROR_COMMON_NOT_INITIALISED` and `U_ERROR_COMMON_INVALID_PARAMETER`
codes respectively. -/
theorem claimC10_getterErrorReporting (s : CellState) :
    (s.mutexInitialised = false →
        uCellInfoGetRssiDbm s = 0 ∧ uCellInfoGetRsrpDbm s = 0 ∧
        uCellInfoGetRsrqDb s = 0 ∧
        uCellInfoGetRxQual s = U_ERROR_COMMON_NOT_INITIALISED ∧
        uCellInfoGetCellId s = U_ERROR_COMMON_NOT_INITIALISED ∧
        uCellInfoGetEarfcn s = U_ERROR_COMMON_NOT_INITIALISED) ∧
    (s.mutexInitialised = true → s.pInstance = none →
        uCellInfoGetRssiDbm s = 0 ∧ uCellInfoGetRsrpDbm s = 0 ∧
        uCellInfoGetRsrqDb s = 0 ∧
        uCellInfoGetRxQual s = U_ERROR_COMMON_INVALID_PARAMETER ∧
        uCellInfoGetCellId s = U_ERROR_COMMON_INVALID_PARAMETER ∧
        uCellInfoGetEarfcn s = U_ERROR_COMMON_INVALID_PARAMETER) ∧
    U_ERROR_COMMON_NOT_INITIALISED ≠ 0 ∧
    U_ERROR_COMMON_INVALID_PARAMETER ≠ 0 ∧
    U_ERROR_COMMON_NOT_INITIALISED ≠ U_ERROR_COMMON_INVALID_PARAMETER := by
  refine ⟨?_, ?_, by decide, by decide, by decide⟩
  · intro h
    simp [uCellInfoGetRssiDbm, uCellInfoGetRsrpDbm, uCellInfoGetRsrqDb,
          uCellInfoGetRxQual, uCellInfoGetCellId, uCellInfoGetEarfcn, h]
  · intro h1 h2
    simp [uCellInfoGetRssiDbm, uCellInfoGetRsrpDbm, uCellInfoGetRsrqDb,
          uCellInfoGetRxQual, uCellInfoGetCellId, uCellInfoGetEarfcn, h1, h2]

/-- Witness for C10: both cases at concrete states (mutex NULL, and mutex
present with an unknown handle). -/
theorem claimC10_getterErrorReporting_witness :
    (uCellInfoGetRssiDbm { mutexInitialised := false, pInstance := none } = 0 ∧
     uCellInfoGetRsrpDbm { mutexInitialised := false, pInstance := none } = 0 ∧
     uCellInfoGetRsrqDb { mutexInitialised := false, pInstance := none } = 0 ∧
     uCellInfoGetRxQual { mutexInitialised := false, pInstance := none } =
       U_ERROR_COMMON_NOT_INITIALISED ∧
     uCellInfoGetCellId { mutexInitialised := false, pInstance := none } =
       U_ERROR_COMMON_NOT_INITIALISED ∧
     uCellInfoGetEarfcn { mutexInitialised := false, pInstance := none } =
       U_ERROR_COMMON_NOT_INITIALISED) ∧
    (uCellInfoGetRssiDbm { mutexInitialised := true, pInstance := none } = 0 ∧
     uCellInfoGetRsrpDbm { mutexInitialised := true, pInstance := none } = 0 ∧
     uCellInfoGetRsrqDb { mutexInitialised := true, pInstance := none } = 0 ∧
     uCellInfoGetRxQual { mutexInitialised := true, pInstance := none } =
       U_ERROR_COMMON_INVALID_PARAMETER ∧
     uCellInfoGetCellId { mutexInitialised := true, pInstance := none } =
       U_ERROR_COMMON_INVALID_PARAMETER ∧
     uCellInfoGetEarfcn { mutexInitialised := true, pInstance := none } =
       U_ERROR_COMMON_INVALID_PARAMETER) :=
  ⟨(claimC10_getterErrorReporting { mutexInitialised := false, pInstance := none }).1 rfl,
   (claimC10_getterErrorReporting { mutexInitialised := true, pInstance := none }).2.1 rfl rfl⟩

/-- Claim C8: for an instance that is not network-registered, the refresh
returns `U_CELL_ERROR_NOT_REGISTERED` without executing any query step,
and every subsequent per-field getter returns its "unknown" sentinel,
the snapshot having been cleared before the registration check. -/
theorem claimC8_notRegistered (s : CellState) (inst : CellInstance)
    (hm : s.mutexInitialised = true) (hi : s.pInstance = some inst)
    (hreg : inst.registered = false) :
    (uCellInfoRefreshRadioParameters s).errorCode = U_CELL_ERROR_NOT_REGISTERED ∧
    (uCellInfoRefreshRadioParameters s).steps = [] ∧
    uCellInfoGetRssiDbm (uCellInfoRefreshRadioParameters s).state = 0 ∧
    uCellInfoGetRsrpDbm (uCellInfoRefreshRadioParameters s).state = 0 ∧
    uCellInfoGetRsrqDb (uCellInfoRefreshRadioParameters s).state = 0 ∧
    uCellInfoGetRxQual (uCellInfoRefreshRadioParameters s).state = -1 ∧
    uCellInfoGetCellId (uCellInfoRefreshRadioParameters s).state = -1 ∧
    uCellInfoGetEarfcn (uCellInfoRefreshRadioParameters s).state = -1 := by
  simp [uCellInfoRefreshRadioParameters, hm, hi, hreg,
        uCellInfoGetRssiDbm, uCellInfoGetRsrpDbm, uCellInfoGetRsrqDb,
        uCellInfoGetRxQual, uCellInfoGetCellId, uCellInfoGetEarfcn,
        uCellPrivateClearRadioParameters]

/-- Witness for C8 at a concrete unregistered SARA-R5 instance whose
snapshot still holds values from an earlier refresh. -/
theorem claimC8_notRegistered_witness :
    let s : CellState :=
      { mutexInitialised := true,
        pInstance := some
          { moduleType := ModuleType.saraR5, registered := false,
            rat := CellNetRat.eutran,
            radioParameters := { rssiDbm := -80, rsrpDbm := -90, rsrqDb := -10,
                                 cellId := 7, earfcn := 2525, rxQual := 3 },
            csq := { x := 10, y := 2, unlockStatus := 0 },
            ucged2 := { earfcn := 2525, cellId := 7, rsrp := 28, rsrq := 31,
                        unlockStatus := 0 },
            ucged5 := { cellId := 7, earfcn := 2525, rsrpRead := none,
                        rsrqRead := none, unlockStatus := 0 } } }
    (uCellInfoRefreshRadioParameters s).errorCode = U_CELL_ERROR_NOT_REGISTERED ∧
    (uCellInfoRefreshRadioParameters s).steps = [] ∧
    uCellInfoGetRssiDbm (uCellInfoRefreshRadioParameters s).state = 0 ∧
    uCellInfoGetRsrpDbm (uCellInfoRefreshRadioParameters s).state = 0 ∧
    uCellInfoGetRsrqDb (uCellInfoRefreshRadioParameters s).state = 0 ∧
    uCellInfoGetRxQual (uCellInfoRefreshRadioParameters s).state = -1 ∧
    uCellInfoGetCellId (uCellInfoRefreshRadioParameters s).state = -1 ∧
    uCellInfoGetEarfcn (uCellInfoRefreshRadioParameters s).state = -1 :=
  claimC8_notRegistered _ _ rfl rfl rfl

/-- Counterexample to claim C1 as stated: a SARA-R5 refresh whose
`AT+CSQ` baseline succeeds (storing RSSI -118 dBm and RxQual 3) and whose
`AT+UCGED?` secondary exchange fails returns a failure status, yet the
snapshot keeps the baseline's writes and the failing step's own field
writes instead of being fully cleared. -/
theorem claimC1_counterexample :
    let s : CellState :=
      { mutexInitialised := true,
        pInstance := some
          { moduleType := ModuleType.saraR5, registered := true,
            rat := CellNetRat.notEutran,
            radioParameters := uCellPrivateClearRadioParameters,
            csq := { x := 0, y := 3, unlockStatus := 0 },
            ucged2 := { earfcn := 2525, cellId := 7, rsrp := 255, rsrq := 255,
                        unlockStatus := U_CELL_ERROR_AT },
            ucged5 := { cellId := 0, earfcn := 0, rsrpRead := none,
                        rsrqRead := none, unlockStatus := 0 } } }
    (uCellInfoRefreshRadioParameters s).errorCode = U_CELL_ERROR_AT ∧
    (uCellInfoRefreshRadioParameters s).errorCode ≠ U_ERROR_COMMON_SUCCESS ∧
    uCellInfoGetRssiDbm (uCellInfoRefreshRadioParameters s).state = -118 ∧
    uCellInfoGetRxQual (uCellInfoRefreshRadioParameters s).state = 3 ∧
    uCellInfoGetEarfcn (uCellInfoRefreshRadioParameters s).state = 2525 ∧
    uCellInfoGetRssiDbm (uCellInfoRefreshRadioParameters s).state ≠ 0 := by
  decide

/-- Claim C1 (amended): the snapshot is cleared at the start of every
refresh that reaches an instance, so a refresh failing at the registration
gate, or failing at the `AT+CSQ` baseline on a module family with no
secondary query, leaves the snapshot fully cleared; but a refresh whose
secondary query exchange fails returns that failure while the snapshot
keeps the fields written by the baseline and the fields the failing
secondary step itself wrote before its status was known. -/
theorem claimC1_amended (s : CellState) (inst : CellInstance)
    (hm : s.mutexInitialised = true) (hi : s.pInstance = some inst) :
    (inst.registered = false →
      (uCellInfoRefreshRadioParameters s).errorCode = U_CELL_ERROR_NOT_REGISTERED ∧
      (uCellInfoRefreshRadioParameters s).state.pInstance =
        some { inst with radioParameters := uCellPrivateClearRadioParameters }) ∧
    (inst.registered = true → inst.moduleType = ModuleType.other →
     inst.csq.unlockStatus ≠ 0 →
      (uCellInfoRefreshRadioParameters s).errorCode = inst.csq.unlockStatus ∧
      (uCellInfoRefreshRadioParameters s).state.pInstance =
        some { inst with radioParameters := uCellPrivateClearRadioParameters }) ∧
    (inst.registered = true → inst.moduleType = ModuleType.saraR5 →
     inst.ucged2.unlockStatus ≠ 0 →
      (uCellInfoRefreshRadioParameters s).errorCode = inst.ucged2.unlockStatus ∧
      (uCellInfoRefreshRadioParameters s).state.pInstance =
        some { inst with radioParameters :=
          { rssiDbm := (getRadioParamsCsq inst.csq uCellPrivateClearRadioParameters).2.rssiDbm,
            rsrpDbm := rsrpToDbm inst.ucged2.rsrp,
            rsrqDb := rsrqToDb inst.ucged2.rsrq,
            cellId := inst.ucged2.cellId,
            earfcn := inst.ucged2.earfcn,
            rxQual := (getRadioParamsCsq inst.csq uCellPrivateClearRadioParameters).2.rxQual } }) ∧
    (inst.registered = true → inst.moduleType = ModuleType.saraR4 →
     inst.rat = CellNetRat.eutran → inst.ucged5.unlockStatus ≠ 0 →
      (uCellInfoRefreshRadioParameters s).errorCode = inst.ucged5.unlockStatus ∧
      (uCellInfoRefreshRadioParameters s).state.pInstance =
        some { inst with radioParameters :=
          (getRadioParamsUcged5 inst.ucged5
            (getRadioParamsCsq inst.csq uCellPrivateClearRadioParameters).2).2 }) := by
  refine ⟨?_, ?_, ?_, ?_⟩
  · intro hreg
    simp [uCellInfoRefreshRadioParameters, hm, hi, hreg]
  · intro hreg hmod hfail
    simp [uCellInfoRefreshRadioParameters, hm, hi, hreg, hmod,
          getRadioParamsCsq_fst, getRadioParamsCsq_fail _ _ hfail]
  · intro hreg hmod hfail
    simp [uCellInfoRefreshRadioParameters, hm, hi, hreg, hmod,
          getRadioParamsUcged2]
  · intro hreg hmod hrat _hfail
    simp [uCellInfoRefreshRadioParameters, hm, hi, hreg, hmod, hrat,
          getRadioParamsUcged5_fst]

/-- Witness for the amended C1: the registration-gate clause and the
no-secondary baseline-failure clause, at concrete instances. -/
theorem claimC1_amended_witness :
    ((uCellInfoRefreshRadioParameters
        { mutexInitialised := true,
          pInstance := some
            { moduleType := ModuleType.other, registered := false,
              rat := CellNetRat.notEutran,
              radioParameters := { rssiDbm := -80, rsrpDbm := -90, rsrqDb := -10,
                                   cellId := 7, earfcn := 2525, rxQual := 3 },
              csq := { x := 0, y := 3, unlockStatus := U_CELL_ERROR_AT },
              ucged2 := { earfcn := 0, cellId := 0, rsrp := 0, rsrq := 0,
                          unlockStatus := 0 },
              ucged5 := { cellId := 0, earfcn := 0, rsrpRead := none,
                          rsrqRead := none, unlockStatus := 0 } } }).errorCode =
        U_CELL_ERROR_NOT_REGISTERED ∧
      (uCellInfoRefreshRadioParameters
        { mutexInitialised := true,
          pInstance := some
            { moduleType := ModuleType.other, registered := false,
              rat := CellNetRat.notEutran,
              radioParameters := { rssiDbm := -80, rsrpDbm := -90, rsrqDb := -10,
                                   cellId := 7, earfcn := 2525, rxQual := 3 },
              csq := { x := 0, y := 3, unlockStatus := U_CELL_ERROR_AT },
              ucged2 := { earfcn := 0, cellId := 0, rsrp := 0, rsrq := 0,
                          unlockStatus := 0 },
              ucged5 := { cellId := 0, earfcn := 0, rsrpRead := none,
                          rsrqRead := none, unlockStatus := 0 } } }).state.pInstance =
        some { moduleType := ModuleType.other, registered := false,
               rat := CellNetRat.notEutran,
               radioParameters := uCellPrivateClearRadioParameters,
               csq := { x := 0, y := 3, unlockStatus := U_CELL_ERROR_AT },
               ucged2 := { earfcn := 0, cellId := 0, rsrp := 0, rsrq := 0,
                           unlockStatus := 0 },
               ucged5 := { cellId := 0, earfcn := 0, rsrpRead := none,
                           rsrqRead := none, unlockStatus := 0 } }) :=
  (claimC1_amended _ _ rfl rfl).1 rfl

/-- Counterexample to claim C2 as stated: on a SARA-R5 instance a failed
`AT+CSQ` baseline neither short-circuits the secondary `AT+UCGED?` query
nor is returned verbatim: the secondary step still executes and its
success overwrites the baseline's transport failure, so the refresh
reports overall success. -/
theorem claimC2_counterexample :
    let s : CellState :=
      { mutexInitialised := true,
        pInstance := some
          { moduleType := ModuleType.saraR5, registered := true,
            rat := CellNetRat.notEutran,
            radioParameters := uCellPrivateClearRadioParameters,
            csq := { x := 0, y := 3, unlockStatus := U_CELL_ERROR_AT },
            ucged2 := { earfcn := 2525, cellId := 7, rsrp := 28, rsrq := 31,
                        unlockStatus := 0 },
            ucged5 := { cellId := 0, earfcn := 0, rsrpRead := none,
                        rsrqRead := none, unlockStatus := 0 } } }
    (uCellInfoRefreshRadioParameters s).errorCode = U_ERROR_COMMON_SUCCESS ∧
    (uCellInfoRefreshRadioParameters s).errorCode ≠ U_CELL_ERROR_AT ∧
    (uCellInfoRefreshRadioParameters s).steps =
      [QueryStep.csqStep, QueryStep.ucged2Step] := by
  decide

/-- Claim C2 (amended): a transport failure of the `AT+CSQ` baseline is
returned verbatim, with no secondary query executed, only on module
families with no secondary strategy; on SARA-R5 the `UCGED=2` query still
executes and its status replaces the baseline failure, on SARA-R4 in
EUTRAN the `UCGED=5` query still executes and its status replaces the
baseline failure, and on SARA-R4 outside EUTRAN the baseline failure is
overwritten by overall success. -/
theorem claimC2_amended (s : CellState) (inst : CellInstance)
    (hm : s.mutexInitialised = true) (hi : s.pInstance = some inst)
    (hreg : inst.registered = true) (_hfail : inst.csq.unlockStatus ≠ 0) :
    (inst.moduleType = ModuleType.other →
      (uCellInfoRefreshRadioParameters s).errorCode = inst.csq.unlockStatus ∧
      (uCellInfoRefreshRadioParameters s).steps = [QueryStep.csqStep]) ∧
    (inst.moduleType = ModuleType.saraR5 →
      (uCellInfoRefreshRadioParameters s).errorCode = inst.ucged2.unlockStatus ∧
      (uCellInfoRefreshRadioParameters s).steps =
        [QueryStep.csqStep, QueryStep.ucged2Step]) ∧
    (inst.moduleType = ModuleType.saraR4 → inst.rat = CellNetRat.eutran →
      (uCellInfoRefreshRadioParameters s).errorCode = inst.ucged5.unlockStatus ∧
      (uCellInfoRefreshRadioParameters s).steps =
        [QueryStep.csqStep, QueryStep.ucged5Step]) ∧
    (inst.moduleType = ModuleType.saraR4 → inst.rat ≠ CellNetRat.eutran →
      (uCellInfoRefreshRadioParameters s).errorCode = U_ERROR_COMMON_SUCCESS ∧
      (uCellInfoRefreshRadioParameters s).steps = [QueryStep.csqStep]) := by
  refine ⟨?_, ?_, ?_, ?_⟩
  · intro hmod
    simp [uCellInfoRefreshRadioParameters, hm, hi, hreg, hmod, getRadioParamsCsq_fst]
  · intro hmod
    simp [uCellInfoRefreshRadioParameters, hm, hi, hreg, hmod, getRadioParamsUcged2]
  · intro hmod hrat
    simp [uCellInfoRefreshRadioParameters, hm, hi, hreg, hmod, hrat,
          getRadioParamsUcged5]
  · intro hmod hrat
    simp [uCellInfoRefreshRadioParameters, hm, hi, hreg, hmod, hrat]

/-- Witness for the amended C2: the no-secondary clause at a concrete
instance whose `AT+CSQ` exchange failed. -/
theorem claimC2_amended_witness :
    (uCellInfoRefreshRadioParameters
        { mutexInitialised := true,
          pInstance := some
            { moduleType := ModuleType.other, registered := true,
              rat := CellNetRat.notEutran,
              radioParameters := uCellPrivateClearRadioParameters,
              csq := { x := 0, y := 3, unlockStatus := U_CELL_ERROR_AT },
              ucged2 := { earfcn := 0, cellId := 0, rsrp := 0, rsrq := 0,
                          unlockStatus := 0 },
              ucged5 := { cellId := 0, earfcn := 0, rsrpRead := none,
                          rsrqRead := none, unlockStatus := 0 } } }).errorCode =
      U_CELL_ERROR_AT ∧
    (uCellInfoRefreshRadioParameters
        { mutexInitialised := true,
          pInstance := some
            { moduleType := ModuleType.other, registered := true,
              rat := CellNetRat.notEutran,
              radioParameters := uCellPrivateClearRadioParameters,
              csq := { x := 0, y := 3, unlockStatus := U_CELL_ERROR_AT },
              ucged2 := { earfcn := 0, cellId := 0, rsrp := 0, rsrq := 0,
                          unlockStatus := 0 },
              ucged5 := { cellId := 0, earfcn := 0, rsrpRead := none,
                          rsrqRead := none, unlockStatus := 0 } } }).steps =
      [QueryStep.csqStep] :=
  (claimC2_amended
    { mutexInitialised := true,
      pInstance := some
        { moduleType := ModuleType.other, registered := true,
          rat := CellNetRat.notEutran,
          radioParameters := uCellPrivateClearRadioParameters,
          csq := { x := 0, y := 3, unlockStatus := U_CELL_ERROR_AT },
          ucged2 := { earfcn := 0, cellId := 0, rsrp := 0, rsrq := 0,
                      unlockStatus := 0 },
          ucged5 := { cellId := 0, earfcn := 0, rsrpRead := none,
                      rsrqRead := none, unlockStatus := 0 } } }
    _ rfl rfl rfl (by decide)).1 rfl

/-! ## Rounding of the `UCGED=5` decimal strings (claim C9) -/

/-- The rounding named by the spec for the `UCGED=5` decimal values:
round half away from zero (round-half-up on the nonnegative side, its
mirror image on the negative side). -/
def roundHalfAwayFromZero (q : ℚ) : Int :=
  if 0 ≤ q then round q else -(round (-q))

/-- The pair of C casts in `getRadioParamsUcged5` implements round half
away from zero. -/
theorem ucgedRound_eq_roundHalfAwayFromZero (q : ℚ) :
    ucgedRound q = roundHalfAwayFromZero q := by
  unfold ucgedRound roundHalfAwayFromZero
  split
  · rw [round_eq]
  · rw [round_eq, show q - 1/2 = -(-q + 1/2) by ring, Int.ceil_neg]

/-- The `roundHalfAwayFromZero` lands within half a unit of its argument: it
is a nearest integer. -/
theorem roundHalfAwayFromZero_nearest (q : ℚ) :
    |(roundHalfAwayFromZero q : ℚ) - q| ≤ 1/2 := by
  unfold roundHalfAwayFromZero
  split
  · rw [abs_sub_comm]
    exact abs_sub_round q
  · push_cast
    rw [show -(round (-q) : ℚ) - q = -((round (-q) : ℚ) - (-q)) by ring, abs_neg,
        abs_sub_comm]
    exact abs_sub_round (-q)

/-- In `getRadioParamsUcged5` the cell ID is stored unconditionally. -/
theorem getRadioParamsUcged5_cellId (r : Ucged5Response) (p : RadioParameters) :
    (getRadioParamsUcged5 r p).2.cellId = r.cellId := by
  rcases h1 : r.rsrpRead with _ | q1 <;> rcases h2 : r.rsrqRead with _ | q2 <;>
    simp [getRadioParamsUcged5, h1, h2]

/-- In `getRadioParamsUcged5` the EARFCN is stored unconditionally. -/
theorem getRadioParamsUcged5_earfcn (r : Ucged5Response) (p : RadioParameters) :
    (getRadioParamsUcged5 r p).2.earfcn = r.earfcn := by
  rcases h1 : r.rsrpRead with _ | q1 <;> rcases h2 : r.rsrqRead with _ | q2 <;>
    simp [getRadioParamsUcged5, h1, h2]

/-- In `getRadioParamsUcged5` a successful RSRP string read stores the
rounded value. -/
theorem getRadioParamsUcged5_rsrpDbm (r : Ucged5Response) (p : RadioParameters)
    (q : ℚ) (h : r.rsrpRead = some q) :
    (getRadioParamsUcged5 r p).2.rsrpDbm = ucgedRound q := by
  rcases h2 : r.rsrqRead with _ | q2 <;> simp [getRadioParamsUcged5, h, h2]

/-- In `getRadioParamsUcged5` a successful RSRQ string read stores the
rounded value. -/
theorem getRadioParamsUcged5_rsrqDb (r : Ucged5Response) (p : RadioParameters)
    (q : ℚ) (h : r.rsrqRead = some q) :
    (getRadioParamsUcged5 r p).2.rsrqDb = ucgedRound q := by
  rcases h1 : r.rsrpRead with _ | q1 <;> simp [getRadioParamsUcged5, h, h1]

/-- Claim C9: on the SARA-R4 family (which only supports the RAT-gated
`UCGED=5` query) a refresh with a non-EUTRAN active RAT skips the
secondary query yet returns overall success, keeping the baseline-only
partial snapshot; with an EUTRAN RAT the query runs and its
decimal-string RSRP/RSRQ values are rounded half away from zero to the
nearest integer into the snapshot, together with cell ID and EARFCN. -/
theorem claimC9_saraR4RatGate (s : CellState) (inst : CellInstance)
    (hm : s.mutexInitialised = true) (hi : s.pInstance = some inst)
    (hreg : inst.registered = true)
    (hmod : inst.moduleType = ModuleType.saraR4) :
    (inst.rat ≠ CellNetRat.eutran →
      (uCellInfoRefreshRadioParameters s).errorCode = U_ERROR_COMMON_SUCCESS ∧
      (uCellInfoRefreshRadioParameters s).steps = [QueryStep.csqStep] ∧
      (uCellInfoRefreshRadioParameters s).state.pInstance =
        some { inst with radioParameters :=
          (getRadioParamsCsq inst.csq uCellPrivateClearRadioParameters).2 }) ∧
    (inst.rat = CellNetRat.eutran →
      (uCellInfoRefreshRadioParameters s).steps =
        [QueryStep.csqStep, QueryStep.ucged5Step] ∧
      (uCellInfoRefreshRadioParameters s).errorCode = inst.ucged5.unlockStatus ∧
      ∃ p : RadioParameters,
        (uCellInfoRefreshRadioParameters s).state.pInstance =
          some { inst with radioParameters := p } ∧
        p.cellId = inst.ucged5.cellId ∧
        p.earfcn = inst.ucged5.earfcn ∧
        (∀ q : ℚ, inst.ucged5.rsrpRead = some q →
          p.rsrpDbm = roundHalfAwayFromZero q ∧ |(p.rsrpDbm : ℚ) - q| ≤ 1/2) ∧
        (∀ q : ℚ, inst.ucged5.rsrqRead = some q →
          p.rsrqDb = roundHalfAwayFromZero q ∧ |(p.rsrqDb : ℚ) - q| ≤ 1/2)) := by
  constructor
  · intro hrat
    refine ⟨?_, ?_, ?_⟩ <;>
      simp [uCellInfoRefreshRadioParameters, hm, hi, hreg, hmod, hrat]
  · intro hrat
    refine ⟨?_, ?_, ?_⟩
    · simp [uCellInfoRefreshRadioParameters, hm, hi, hreg, hmod, hrat]
    · simp [uCellInfoRefreshRadioParameters, hm, hi, hreg, hmod, hrat,
            getRadioParamsUcged5_fst]
    · refine ⟨(getRadioParamsUcged5 inst.ucged5
          (getRadioParamsCsq inst.csq uCellPrivateClearRadioParameters).2).2,
        ?_, getRadioParamsUcged5_cellId _ _, getRadioParamsUcged5_earfcn _ _,
        ?_, ?_⟩
      · simp [uCellInfoRefreshRadioParameters, hm, hi, hreg, hmod, hrat]
      · intro q hq
        rw [getRadioParamsUcged5_rsrpDbm _ _ _ hq,
            ucgedRound_eq_roundHalfAwayFromZero]
        exact ⟨rfl, roundHalfAwayFromZero_nearest q⟩
      · intro q hq
        rw [getRadioParamsUcged5_rsrqDb _ _ _ hq,
            ucgedRound_eq_roundHalfAwayFromZero]
        exact ⟨rfl, roundHalfAwayFromZero_nearest q⟩

/-- Witness for C9: the skip clause at a concrete registered SARA-R4
instance camped on a non-EUTRAN RAT whose `AT+CSQ` exchange succeeded. -/
theorem claimC9_saraR4RatGate_witness :
    (uCellInfoRefreshRadioParameters
        { mutexInitialised := true,
          pInstance := some
            { moduleType := ModuleType.saraR4, registered := true,
              rat := CellNetRat.notEutran,
              radioParameters := uCellPrivateClearRadioParameters,
              csq := { x := 31, y := 99, unlockStatus := 0 },
              ucged2 := { earfcn := 0, cellId := 0, rsrp := 0, rsrq := 0,
                          unlockStatus := 0 },
              ucged5 := { cellId := 7, earfcn := 2525, rsrpRead := none,
                          rsrqRead := none, unlockStatus := 0 } } }).errorCode =
      U_ERROR_COMMON_SUCCESS ∧
    (uCellInfoRefreshRadioParameters
        { mutexInitialised := true,
          pInstance := some
            { moduleType := ModuleType.saraR4, registered := true,
              rat := CellNetRat.notEutran,
              radioParameters := uCellPrivateClearRadioParameters,
              csq := { x := 31, y := 99, unlockStatus := 0 },
              ucged2 := { earfcn := 0, cellId := 0, rsrp := 0, rsrq := 0,
                          unlockStatus := 0 },
              ucged5 := { cellId := 7, earfcn := 2525, rsrpRead := none,
                          rsrqRead := none, unlockStatus := 0 } } }).steps =
      [QueryStep.csqStep] ∧
    (uCellInfoRefreshRadioParameters
        { mutexInitialised := true,
          pInstance := some
            { moduleType := ModuleType.saraR4, registered := true,
              rat := CellNetRat.notEutran,
              radioParameters := uCellPrivateClearRadioParameters,
              csq := { x := 31, y := 99, unlockStatus := 0 },
              ucged2 := { earfcn := 0, cellId := 0, rsrp := 0, rsrq := 0,
                          unlockStatus := 0 },
              ucged5 := { cellId := 7, earfcn := 2525, rsrpRead := none,
                          rsrqRead := none, unlockStatus := 0 } } }).state.pInstance =
      some { moduleType := ModuleType.saraR4, registered := true,
             rat := CellNetRat.notEutran,
             radioParameters :=
               (getRadioParamsCsq { x := 31, y := 99, unlockStatus := 0 }
                 uCellPrivateClearRadioParameters).2,
             csq := { x := 31, y := 99, unlockStatus := 0 },
             ucged2 := { earfcn := 0, cellId := 0, rsrp := 0, rsrq := 0,
                         unlockStatus := 0 },
             ucged5 := { cellId := 7, earfcn := 2525, rsrpRead := none,
                         rsrqRead := none, unlockStatus := 0 } } :=
  (claimC9_saraR4RatGate
    { mutexInitialised := true,
      pInstance := some
        { moduleType := ModuleType.saraR4, registered := true,
          rat := CellNetRat.notEutran,
          radioParameters := uCellPrivateClearRadioParameters,
          csq := { x := 31, y := 99, unlockStatus := 0 },
          ucged2 := { earfcn := 0, cellId := 0, rsrp := 0, rsrq := 0,
                      unlockStatus := 0 },
          ucged5 := { cellId := 7, earfcn := 2525, rsrpRead := none,
                      rsrqRead := none, unlockStatus := 0 } } }
    _ rfl rfl rfl rfl).1 (by decide)

/-! ## IMEI reader (u_cell_info.c:520) -/

/-- The `U_CELL_INFO_IMEI_SIZE`.  Modelled from the spec: the constant is
defined in `u_cell_info.h`, outside this repository slice; the spec fixes
the identity string at 15 characters. -/
def U_CELL_INFO_IMEI_SIZE : Nat := 15

/-- A decimal digit, as C `isdigit` classifies the IMEI bytes. -/
def isDecimalDigit (c : Char) : Bool := '0' ≤ c && c ≤ '9'

/-- Modelled from the spec: `uCellPrivateIsNumeric` (in `u_cell_private.c`,
outside this repository slice) checks that the first `n` buffer bytes are
all decimal digits. -/
def uCellPrivateIsNumeric (cs : List Char) (n : Nat) : Bool :=
  n ≤ cs.length && (cs.take n).all isDecimalDigit

/-- One iteration's wire data for the IMEI loop: the bytes
`uAtClientReadBytes` placed in the buffer, its byte-count-or-error return
value, and the unlock status of the exchange. -/
structure ImeiAttempt where
  readData : List Char
  readStatus : Int
  unlockStatus : Int
deriving DecidableEq

/-- The acceptance test of one IMEI attempt (u_cell_info.c:553): unlock
succeeded, exactly `U_CELL_INFO_IMEI_SIZE` bytes were read, and they are
all numerals. -/
def imeiAttemptValid (a : ImeiAttempt) : Bool :=
  a.unlockStatus = 0 && a.readStatus = (U_CELL_INFO_IMEI_SIZE : Int) &&
    uCellPrivateIsNumeric a.readData U_CELL_INFO_IMEI_SIZE

/-- The retry loop of `uCellInfoGetImei` (u_cell_info.c:544): up to `fuel`
attempts, stopping at the first valid one.  Returns the error code and
the number of attempts consumed. -/
def imeiAttemptLoop : Nat → List ImeiAttempt → Int × Nat
  | 0, _ => (U_CELL_ERROR_AT, 0)
  | Nat.succ _, [] => (U_CELL_ERROR_AT, 0)
  | Nat.succ fuel, a :: rest =>
      if imeiAttemptValid a then
        (U_ERROR_COMMON_SUCCESS, 1)
      else
        let r := imeiAttemptLoop fuel rest
        (r.1, r.2 + 1)

/-- The `uCellInfoGetImei` (u_cell_info.c:520): the usual gates, then the
ten-attempt loop over the session's successive responses. -/
def uCellInfoGetImei (s : CellState) (attempts : List ImeiAttempt) :
    Int × Nat :=
  if s.mutexInitialised then
    match s.pInstance with
    | none => (U_ERROR_COMMON_INVALID_PARAMETER, 0)
    | some _ => imeiAttemptLoop 10 attempts
  else (U_ERROR_COMMON_NOT_INITIALISED, 0)

/-- The loop consumes at most its fuel. -/
theorem imeiAttemptLoop_used_le (n : Nat) (l : List ImeiAttempt) :
    (imeiAttemptLoop n l).2 ≤ n := by
  induction n generalizing l with
  | zero => simp [imeiAttemptLoop]
  | succ n ih =>
      cases l with
      | nil => simp [imeiAttemptLoop]
      | cons a rest =>
          by_cases h : imeiAttemptValid a <;> simp [imeiAttemptLoop, h]
          have := ih rest
          omega

/-- If every attempt offered to the loop fails validation, the loop burns
all its fuel and reports the AT error. -/
theorem imeiAttemptLoop_all_invalid (n : Nat) (l : List ImeiAttempt)
    (hn : n ≤ l.length)
    (h : ((l.take n).all fun b => ! imeiAttemptValid b) = true) :
    imeiAttemptLoop n l = (U_CELL_ERROR_AT, n) := by
  induction n generalizing l with
  | zero => simp [imeiAttemptLoop]
  | succ n ih =>
      cases l with
      | nil => simp at hn
      | cons a rest =>
          simp only [List.take_succ_cons, List.all_cons, Bool.and_eq_true,
                     Bool.not_eq_eq_eq_not, Bool.not_true] at h
          simp only [imeiAttemptLoop, h.1, Bool.false_eq_true, if_false]
          rw [ih rest (by simpa using hn) h.2]

/-- The loop succeeds at the first valid attempt, consuming exactly the
attempts up to and including it. -/
theorem imeiAttemptLoop_first_valid (i : Nat) (n : Nat)
    (l : List ImeiAttempt) (a : ImeiAttempt) (hi : i < n)
    (ha : l[i]? = some a) (hv : imeiAttemptValid a = true)
    (hbefore : ((l.take i).all fun b => ! imeiAttemptValid b) = true) :
    imeiAttemptLoop n l = (U_ERROR_COMMON_SUCCESS, i + 1) := by
  induction i generalizing n l with
  | zero =>
      cases l with
      | nil => simp at ha
      | cons b rest =>
          simp only [List.getElem?_cons_zero, Option.some.injEq] at ha
          cases n with
          | zero => omega
          | succ n => simp [imeiAttemptLoop, ha, hv]
  | succ i ih =>
      cases l with
      | nil => simp at ha
      | cons b rest =>
          simp only [List.take_succ_cons, List.all_cons, Bool.and_eq_true,
                     Bool.not_eq_eq_eq_not, Bool.not_true] at hbefore
          cases n with
          | zero => omega
          | succ n =>
              simp only [imeiAttemptLoop, hbefore.1, Bool.false_eq_true, if_false]
              rw [ih n rest (by omega) (by simpa using ha) hbefore.2]

/-- Claim C7: the IMEI reader performs at most 10 read-and-validate
attempts, succeeds exactly at the first attempt whose exchange unlocked
cleanly with a byte count of exactly 15 and all-numeral content, and
returns the transport-error kind `U_CELL_ERROR_AT` when the first 10
attempts all fail validation. -/
theorem claimC7_imeiRetry (s : CellState) (inst : CellInstance)
    (hm : s.mutexInitialised = true) (hi : s.pInstance = some inst)
    (attempts : List ImeiAttempt) :
    (uCellInfoGetImei s attempts).2 ≤ 10 ∧
    (∀ i a, i < 10 → attempts[i]? = some a → imeiAttemptValid a = true →
      ((attempts.take i).all fun b => ! imeiAttemptValid b) = true →
      uCellInfoGetImei s attempts = (U_ERROR_COMMON_SUCCESS, i + 1)) ∧
    (10 ≤ attempts.length →
      ((attempts.take 10).all fun b => ! imeiAttemptValid b) = true →
      uCellInfoGetImei s attempts = (U_CELL_ERROR_AT, 10)) := by
  have hred : uCellInfoGetImei s attempts = imeiAttemptLoop 10 attempts := by
    simp [uCellInfoGetImei, hm, hi]
  refine ⟨?_, ?_, ?_⟩
  · rw [hred]
    exact imeiAttemptLoop_used_le 10 attempts
  · intro i a hilt ha hv hbefore
    rw [hred]
    exact imeiAttemptLoop_first_valid i 10 attempts a hilt ha hv hbefore
  · intro hlen hall
    rw [hred]
    exact imeiAttemptLoop_all_invalid 10 attempts hlen hall

/-- Witness for C7: a concrete session returning one malformed response
(a URC fragment, 10 bytes) followed by a valid 15-digit response succeeds
on the second attempt. -/
theorem claimC7_imeiRetry_witness :
    uCellInfoGetImei
      { mutexInitialised := true,
        pInstance := some
          { moduleType := ModuleType.other, registered := true,
            rat := CellNetRat.notEutran,
            radioParameters := uCellPrivateClearRadioParameters,
            csq := { x := 0, y := 0, unlockStatus := 0 },
            ucged2 := { earfcn := 0, cellId := 0, rsrp := 0, rsrq := 0,
                        unlockStatus := 0 },
            ucged5 := { cellId := 0, earfcn := 0, rsrpRead := none,
                        rsrqRead := none, unlockStatus := 0 } } }
      ({ readData := ("+CREG: 1,5").toList, readStatus := 10, unlockStatus := 0 } ::
        { readData := ("490154203237518").toList, readStatus := 15,
          unlockStatus := 0 } ::
        List.replicate 8
          { readData := ("+CREG: 1,5").toList, readStatus := 10,
            unlockStatus := 0 }) =
      (U_ERROR_COMMON_SUCCESS, 2) :=
  (claimC7_imeiRetry
    { mutexInitialised := true,
      pInstance := some
        { moduleType := ModuleType.other, registered := true,
          rat := CellNetRat.notEutran,
          radioParameters := uCellPrivateClearRadioParameters,
          csq := { x := 0, y := 0, unlockStatus := 0 },
          ucged2 := { earfcn := 0, cellId := 0, rsrp := 0, rsrq := 0,
                      unlockStatus := 0 },
          ucged5 := { cellId := 0, earfcn := 0, rsrpRead := none,
                      rsrqRead := none, unlockStatus := 0 } } }
    _ rfl rfl _).2.1 1
    { readData := ("490154203237518").toList, readStatus := 15,
      unlockStatus := 0 }
    (by decide) (by decide) (by decide) (by decide)

/-! ## UTC time decoder (u_cell_info.c:713)

The C code null-terminates each two-character window in place
(`buffer[offset + 2] = 0`) and calls `atoi(&(buffer[offset]))`, so each
`atoi` sees exactly the two characters at `offset` and `offset + 1` (the
windows never straddle a previously written terminator). -/

/-- The whitespace characters C `isspace` accepts in the "C" locale
(`atoi` skips them). -/
def cIsSpace (c : Char) : Bool :=
  c = ' ' || c = '\t' || c = '\n' || c = '\x0b' || c = '\x0c' || c = '\r'

/-- Numeric value of a digit character. -/
def digitVal (c : Char) : Int := (c.toNat : Int) - 48

/-- The digit-consuming tail of C `atoi`. -/
def atoiDigits : List Char → Int → Int
  | [], acc => acc
  | c :: rest, acc =>
      if isDecimalDigit c then atoiDigits rest (acc * 10 + digitVal c) else acc

/-- C `atoi` on a bounded window: skip whitespace, take an optional sign,
then consume digits up to the first non-digit; 0 when there are no
digits. -/
def atoiSpan (cs : List Char) : Int :=
  match cs.dropWhile cIsSpace with
  | '+' :: rest => atoiDigits rest 0
  | '-' :: rest => - atoiDigits rest 0
  | rest => atoiDigits rest 0

/-- The value `atoi(&(buffer[off]))` produces after
`buffer[off + 2] = 0`. -/
def field2 (cs : List Char) (off : Nat) : Int :=
  atoiSpan ((cs.drop off).take 2)

/-- The fields of C `struct tm` that `uCellInfoGetTimeUtc` fills in. -/
structure Tm where
  tm_sec : Int
  tm_min : Int
  tm_hour : Int
  tm_mday : Int
  tm_mon : Int
  tm_year : Int
deriving Repr, DecidableEq

/-- Days from 1970-01-01 to the civil date `y-m-d` in the proleptic
Gregorian calendar (the standard era-based algorithm; day `d` may exceed
the month length, the excess carrying over linearly). -/
def daysFromCivil (y m d : Int) : Int :=
  let y2 := if m ≤ 2 then y - 1 else y
  let era := Int.fdiv y2 400
  let yoe := y2 - era * 400
  let mp := Int.emod (m + 9) 12
  let doy := Int.fdiv (153 * mp + 2) 5 + d - 1
  let doe := yoe * 365 + Int.fdiv yoe 4 - Int.fdiv yoe 100 + doy
  era * 146097 + doe - 719468

/-- Modelled from the spec: `mktime` comes from the platform C library,
outside this repository slice; the spec prescribes standard calendar
arithmetic in UTC with no DST rules.  Out-of-range months fold into the
year (as `mktime` normalisation does) and day/hour/minute/second excesses
carry linearly; the result stands for `time_t` and is kept as an
unbounded integer. -/
def mktime (t : Tm) : Int :=
  let ym := (t.tm_year + 1900) * 12 + t.tm_mon
  let y := Int.fdiv ym 12
  let m := Int.emod ym 12 + 1
  daysFromCivil y m t.tm_mday * 86400
    + t.tm_hour * 3600 + t.tm_min * 60 + t.tm_sec

/-- The `struct tm` filled from the fixed offsets 0, 3, 6, 9, 12 and 15
(u_cell_info.c:746 to u_cell_info.c:769): two-digit year stored as
`YY + 2000 - 1900` years since 1900, month made 0-based, then day, hour,
minute and second. -/
def cclkTm (cs : List Char) : Tm :=
  { tm_year := field2 cs 0 + 2000 - 1900
    tm_mon := field2 cs 3 - 1
    tm_mday := field2 cs 6
    tm_hour := field2 cs 9
    tm_min := field2 cs 12
    tm_sec := field2 cs 15 }

/-- Wire data for one `AT+CCLK?` exchange: the string read into the
buffer (a failed or empty read is modelled by a short string) and the
unlock status. -/
structure CclkResponse where
  chars : List Char
  unlockStatus : Int

/-- Wrap of an unbounded integer into `int32_t` (twos complement), as the
C cast `(int32_t) mktime(&timeInfo)` at u_cell_info.c:771 performs when
`time_t` is wider than 32 bits.  (A 32-bit `time_t` platform instead has
`mktime` itself return -1 on overflow; both render the post-2038 epochs
negative, reaching the same failure branch.) -/
def toInt32 (x : Int) : Int :=
  Int.emod (x + 2 ^ 31) (2 ^ 32) - 2 ^ 31

/-- The `uCellInfoGetTimeUtc` (u_cell_info.c:713): gates, the 17-byte minimum
length check, fixed-offset parsing, `mktime` cast into the `int32_t`
local `timeUtc` (u_cell_info.c:718 and u_cell_info.c:771), then the
quarter-hour timezone subtraction (kept in `int32_t`) when at least 20
bytes were read, failing with `U_ERROR_COMMON_UNKNOWN` when the computed
epoch is negative. -/
def uCellInfoGetTimeUtc (s : CellState) (resp : CclkResponse) : Int :=
  if s.mutexInitialised then
    match s.pInstance with
    | none => U_ERROR_COMMON_INVALID_PARAMETER
    | some _ =>
        if 17 ≤ resp.chars.length ∧ resp.unlockStatus = 0 then
          let timeUtc := toInt32 (mktime (cclkTm resp.chars))
          let timeUtc :=
            if 0 ≤ timeUtc ∧ 20 ≤ resp.chars.length then
              toInt32 (timeUtc - field2 resp.chars 18 * 15 * 60)
            else timeUtc
          if 0 ≤ timeUtc then timeUtc else U_ERROR_COMMON_UNKNOWN
        else U_CELL_ERROR_AT
  else U_ERROR_COMMON_NOT_INITIALISED

/-- Claim C4: the UTC-time decoder reads two-character numeric fields at
offsets 0, 3, 6, 9, 12 and 15 as year `2000 + YY`, 0-based month, day,
hour, minute and second, converts them to an epoch held in `int32_t`;
when at least 20 bytes were read it subtracts `Q * 15 * 60` seconds for
the (sign-aware) quarter-hour count parsed at offset 18; and it fails
whenever the computed epoch is negative (`U_ERROR_COMMON_UNKNOWN`, which
the 32-bit wrap makes reachable for post-2038 dates) or fewer than 17
bytes were read (`U_CELL_ERROR_AT`). -/
theorem claimC4_timeUtc (s : CellState) (inst : CellInstance)
    (hm : s.mutexInitialised = true) (hi : s.pInstance = some inst)
    (resp : CclkResponse) (hu : resp.unlockStatus = 0) :
    (∀ a b : Nat, a < 10 → b < 10 →
      atoiSpan [Char.ofNat (48 + a), Char.ofNat (48 + b)] =
        10 * (a : Int) + (b : Int)) ∧
    (resp.chars.length < 17 →
      uCellInfoGetTimeUtc s resp = U_CELL_ERROR_AT) ∧
    (17 ≤ resp.chars.length → toInt32 (mktime (cclkTm resp.chars)) < 0 →
      uCellInfoGetTimeUtc s resp = U_ERROR_COMMON_UNKNOWN) ∧
    (17 ≤ resp.chars.length → 0 ≤ toInt32 (mktime (cclkTm resp.chars)) →
     resp.chars.length < 20 →
      uCellInfoGetTimeUtc s resp = toInt32 (mktime (cclkTm resp.chars))) ∧
    (17 ≤ resp.chars.length → 0 ≤ toInt32 (mktime (cclkTm resp.chars)) →
     20 ≤ resp.chars.length →
      uCellInfoGetTimeUtc s resp =
        (if 0 ≤ toInt32 (toInt32 (mktime (cclkTm resp.chars)) -
                  field2 resp.chars 18 * 15 * 60)
         then toInt32 (toInt32 (mktime (cclkTm resp.chars)) -
                  field2 resp.chars 18 * 15 * 60)
         else U_ERROR_COMMON_UNKNOWN)) := by
  have hred : uCellInfoGetTimeUtc s resp =
      (if 17 ≤ resp.chars.length ∧ resp.unlockStatus = 0 then
        (if 0 ≤ toInt32 (mktime (cclkTm resp.chars)) ∧ 20 ≤ resp.chars.length then
          (if 0 ≤ toInt32 (toInt32 (mktime (cclkTm resp.chars)) -
                    field2 resp.chars 18 * 15 * 60)
           then toInt32 (toInt32 (mktime (cclkTm resp.chars)) -
                    field2 resp.chars 18 * 15 * 60)
           else U_ERROR_COMMON_UNKNOWN)
         else
          (if 0 ≤ toInt32 (mktime (cclkTm resp.chars))
           then toInt32 (mktime (cclkTm resp.chars))
           else U_ERROR_COMMON_UNKNOWN))
       else U_CELL_ERROR_AT) := by
    simp only [uCellInfoGetTimeUtc, hm, hi, if_true]
    split_ifs <;> rfl
  refine ⟨?_, ?_, ?_, ?_, ?_⟩
  · intro a b ha hb
    interval_cases a <;> interval_cases b <;> decide
  · intro hlen
    rw [hred, if_neg (by omega)]
  · intro hlen hneg
    rw [hred, if_pos ⟨hlen, hu⟩, if_neg (by omega), if_neg (by omega)]
  · intro hlen hpos hshort
    rw [hred, if_pos ⟨hlen, hu⟩, if_neg (by omega), if_pos hpos]
  · intro hlen hpos hlong
    rw [hred, if_pos ⟨hlen, hu⟩, if_pos ⟨hpos, hlong⟩]

/-- Witness for C4: the spec's round-trip examples plus the 32-bit wrap.
The string `"21/08/05,12:30:00+04"` decodes to the epoch of
2021-08-05T12:30:00Z (1628166600) minus 3600 seconds; the offset-free
`"21/08/05,12:30:00"` decodes to that epoch exactly; the post-2038 string
`"99/12/31,23:59:59"` (unbounded epoch 4102444799) wraps negative in
`int32_t` and fails with `U_ERROR_COMMON_UNKNOWN`; and the digit pair
`'2','1'` parses as 21. -/
theorem claimC4_timeUtc_witness :
    uCellInfoGetTimeUtc
      { mutexInitialised := true,
        pInstance := some
          { moduleType := ModuleType.other, registered := true,
            rat := CellNetRat.notEutran,
            radioParameters := uCellPrivateClearRadioParameters,
            csq := { x := 0, y := 0, unlockStatus := 0 },
            ucged2 := { earfcn := 0, cellId := 0, rsrp := 0, rsrq := 0,
                        unlockStatus := 0 },
            ucged5 := { cellId := 0, earfcn := 0, rsrpRead := none,
                        rsrqRead := none, unlockStatus := 0 } } }
      { chars := ("21/08/05,12:30:00+04").toList, unlockStatus := 0 } =
      1628166600 - 3600 ∧
    uCellInfoGetTimeUtc
      { mutexInitialised := true,
        pInstance := some
          { moduleType := ModuleType.other, registered := true,
            rat := CellNetRat.notEutran,
            radioParameters := uCellPrivateClearRadioParameters,
            csq := { x := 0, y := 0, unlockStatus := 0 },
            ucged2 := { earfcn := 0, cellId := 0, rsrp := 0, rsrq := 0,
                        unlockStatus := 0 },
            ucged5 := { cellId := 0, earfcn := 0, rsrpRead := none,
                        rsrqRead := none, unlockStatus := 0 } } }
      { chars := ("21/08/05,12:30:00").toList, unlockStatus := 0 } =
      1628166600 ∧
    uCellInfoGetTimeUtc
      { mutexInitialised := true,
        pInstance := some
          { moduleType := ModuleType.other, registered := true,
            rat := CellNetRat.notEutran,
            radioParameters := uCellPrivateClearRadioParameters,
            csq := { x := 0, y := 0, unlockStatus := 0 },
            ucged2 := { earfcn := 0, cellId := 0, rsrp := 0, rsrq := 0,
                        unlockStatus := 0 },
            ucged5 := { cellId := 0, earfcn := 0, rsrpRead := none,
                        rsrqRead := none, unlockStatus := 0 } } }
      { chars := ("99/12/31,23:59:59").toList, unlockStatus := 0 } =
      U_ERROR_COMMON_UNKNOWN ∧
    atoiSpan [Char.ofNat (48 + 2), Char.ofNat (48 + 1)] = 10 * (2 : Int) + 1 := by
  refine ⟨?_, ?_, ?_, ?_⟩
  · exact ((claimC4_timeUtc
      { mutexInitialised := true,
        pInstance := some
          { moduleType := ModuleType.other, registered := true,
            rat := CellNetRat.notEutran,
            radioParameters := uCellPrivateClearRadioParameters,
            csq := { x := 0, y := 0, unlockStatus := 0 },
            ucged2 := { earfcn := 0, cellId := 0, rsrp := 0, rsrq := 0,
                        unlockStatus := 0 },
            ucged5 := { cellId := 0, earfcn := 0, rsrpRead := none,
                        rsrqRead := none, unlockStatus := 0 } } }
      _ rfl rfl
      { chars := ("21/08/05,12:30:00+04").toList, unlockStatus := 0 }
      rfl).2.2.2.2 (by decide) (by decide) (by decide)).trans (by decide)
  · exact ((claimC4_timeUtc
      { mutexInitialised := true,
        pInstance := some
          { moduleType := ModuleType.other, registered := true,
            rat := CellNetRat.notEutran,
            radioParameters := uCellPrivateClearRadioParameters,
            csq := { x := 0, y := 0, unlockStatus := 0 },
            ucged2 := { earfcn := 0, cellId := 0, rsrp := 0, rsrq := 0,
                        unlockStatus := 0 },
            ucged5 := { cellId := 0, earfcn := 0, rsrpRead := none,
                        rsrqRead := none, unlockStatus := 0 } } }
      _ rfl rfl
      { chars := ("21/08/05,12:30:00").toList, unlockStatus := 0 }
      rfl).2.2.2.1 (by decide) (by decide) (by decide)).trans (by decide)
  · exact (claimC4_timeUtc
      { mutexInitialised := true,
        pInstance := some
          { moduleType := ModuleType.other, registered := true,
            rat := CellNetRat.notEutran,
            radioParameters := uCellPrivateClearRadioParameters,
            csq := { x := 0, y := 0, unlockStatus := 0 },
            ucged2 := { earfcn := 0, cellId := 0, rsrp := 0, rsrq := 0,
                        unlockStatus := 0 },
            ucged5 := { cellId := 0, earfcn := 0, rsrpRead := none,
                        rsrqRead := none, unlockStatus := 0 } } }
      _ rfl rfl
      { chars := ("99/12/31,23:59:59").toList, unlockStatus := 0 }
      rfl).2.2.1 (by decide) (by decide)
  · exact (claimC4_timeUtc
      { mutexInitialised := true,
        pInstance := some
          { moduleType := ModuleType.other, registered := true,
            rat := CellNetRat.notEutran,
            radioParameters := uCellPrivateClearRadioParameters,
            csq := { x := 0, y := 0, unlockStatus := 0 },
            ucged2 := { earfcn := 0, cellId := 0, rsrp := 0, rsrq := 0,
                        unlockStatus := 0 },
            ucged5 := { cellId := 0, earfcn := 0, rsrpRead := none,
                        rsrqRead := none, unlockStatus := 0 } } }
      _ rfl rfl
      { chars := ("21/08/05,12:30:00").toList, unlockStatus := 0 }
      rfl).1 2 1 (by decide) (by decide)

end UCellInfo
